import Mathlib

/-!
Verification of the desto session/job status-tracking core.

The embedding models the Redis-backed `SessionStatusTracker`
(src/desto/redis/status_tracker.py), the helper script
scripts/mark_job_finished.py, the monitoring loop and command wrapping of
`TmuxManager` (src/desto/app/sessions.py), and the duplicate-session check of
`CLISessionManager.start_session` (src/desto/cli/session_manager.py).

Modelling conventions:
- A Redis instance is a `RedisState`: hashes, key expiries and the list of
  published messages, each as association lists keyed by strings.  Redis hash
  writes (`hset` with a mapping) merge fields into the existing hash, which is
  what `fmSetMany` does.
- Timestamps are integers; `datetime.now().isoformat()` is `isoformat now`
  (decimal rendering), `datetime.fromisoformat` is `fromisoformat`
  (`String.toInt?`; a parse failure models the `ValueError` the Python call
  raises), and `str(timedelta)` is `str_timedelta` applied to the integer
  difference.
- Store unavailability is modelled by a boolean `avail` threaded through the
  primitive operations: when `avail = false` every primitive raises
  (returns `Except.error`), matching a connection-refused/timeout failure.
  Python code without a try/except around its Redis calls is therefore
  embedded in the `Except String` monad; code that catches exceptions is
  embedded as a total function.
-/

set_option autoImplicit false

namespace Desto

/-! ### Association lists (Redis hashes and key tables) -/

abbrev FieldMap := List (String × String)

/-- Lookup in an association list (first binding of the key wins). -/
def alGet {α : Type} : List (String × α) → String → Option α
  | [], _ => none
  | (k, v) :: rest, key => if k = key then some v else alGet rest key

/-- Set a key in an association list, replacing an existing binding. -/
def alSet {α : Type} : List (String × α) → String → α → List (String × α)
  | [], key, v => [(key, v)]
  | (k, w) :: rest, key, v =>
      if k = key then (k, v) :: rest else (k, w) :: alSet rest key v

theorem alGet_alSet {α : Type} (l : List (String × α)) (k k' : String) (v : α) :
    alGet (alSet l k v) k' = if k = k' then some v else alGet l k' := by
  induction l with
  | nil =>
      by_cases h : k = k' <;> simp [alSet, alGet, h]
  | cons p rest ih =>
      obtain ⟨a, b⟩ := p
      by_cases ha : a = k
      · subst ha
        by_cases h : a = k' <;> simp [alSet, alGet, h]
      · by_cases h : a = k'
        · subst h
          have hk : ¬ k = a := fun hh => ha hh.symm
          simp [alSet, alGet, ha, hk]
        · simp [alSet, alGet, ha, h, ih]

theorem alSet_ne_nil {α : Type} (l : List (String × α)) (k : String) (v : α) :
    alSet l k v ≠ [] := by
  cases l with
  | nil => simp [alSet]
  | cons p rest =>
      simp only [alSet]
      split <;> simp

theorem alGet_some_ne_nil {α : Type} {l : List (String × α)} {k : String} {v : α}
    (h : alGet l k = some v) : l ≠ [] := by
  intro hnil
  subst hnil
  simp [alGet] at h

/-- Merge a mapping into a field map, later entries overriding earlier ones;
this is the semantics of Redis `HSET key mapping`. -/
def fmSetMany (m : FieldMap) (updates : FieldMap) : FieldMap :=
  updates.foldl (fun acc kv => alSet acc kv.1 kv.2) m

theorem fmSetMany_nil (m : FieldMap) : fmSetMany m [] = m := rfl

theorem fmSetMany_cons (m : FieldMap) (k v : String) (us : FieldMap) :
    fmSetMany m ((k, v) :: us) = fmSetMany (alSet m k v) us := rfl

/-! ### The Redis store -/

structure RedisState where
  hashes : List (String × FieldMap)
  expires : List (String × Nat)
  published : List (String × FieldMap)
  deriving Repr, DecidableEq

def RedisState.empty : RedisState := ⟨[], [], []⟩

/-- `HGETALL key` (an absent key reads as the empty hash, as in Redis). -/
def hgetall (st : RedisState) (key : String) : FieldMap :=
  (alGet st.hashes key).getD []

/-- `HSET key mapping`: merge the mapping into the hash at `key`. -/
def hsetMapping (st : RedisState) (key : String) (mapping : FieldMap) : RedisState :=
  { st with hashes := alSet st.hashes key (fmSetMany (hgetall st key) mapping) }

/-- `HGET key field`. -/
def hget (st : RedisState) (key field : String) : Option String :=
  alGet (hgetall st key) field

/-- `EXPIRE key seconds`. -/
def expireKey (st : RedisState) (key : String) (seconds : Nat) : RedisState :=
  { st with expires := alSet st.expires key seconds }

/-- `PUBLISH channel message` (messages modelled as field maps, standing for
the `json.dumps` of the Python dict). -/
def publishMsg (st : RedisState) (channel : String) (message : FieldMap) : RedisState :=
  { st with published := st.published ++ [(channel, message)] }

theorem hgetall_hsetMapping (st : RedisState) (key key' : String) (mapping : FieldMap) :
    hgetall (hsetMapping st key mapping) key' =
      if key = key' then fmSetMany (hgetall st key) mapping else hgetall st key' := by
  by_cases h : key = key' <;>
    simp [hgetall, hsetMapping, alGet_alSet, h]

/-! ### Failure-injecting primitives

`avail = false` models the store being unreachable: every primitive call
raises a connection error. -/

def hgetallE (avail : Bool) (st : RedisState) (key : String) :
    Except String FieldMap :=
  if avail then .ok (hgetall st key) else .error "ConnectionError"

def hsetE (avail : Bool) (st : RedisState) (key : String) (mapping : FieldMap) :
    Except String RedisState :=
  if avail then .ok (hsetMapping st key mapping) else .error "ConnectionError"

def hgetE (avail : Bool) (st : RedisState) (key field : String) :
    Except String (Option String) :=
  if avail then .ok (hget st key field) else .error "ConnectionError"

def expireE (avail : Bool) (st : RedisState) (key : String) (seconds : Nat) :
    Except String RedisState :=
  if avail then .ok (expireKey st key seconds) else .error "ConnectionError"

def publishE (avail : Bool) (st : RedisState) (channel : String) (message : FieldMap) :
    Except String RedisState :=
  if avail then .ok (publishMsg st channel message) else .error "ConnectionError"

/-- Run a store action, falling back to the pre-state on failure.  Used where
the Python caller's own exception handler leaves the state as it was. -/
def runE (st : RedisState) (e : Except String RedisState) : RedisState :=
  match e with
  | .ok st' => st'
  | .error _ => st

/-! ### Time model -/

/-- Models `datetime.now().isoformat()` for an integer timestamp. -/
def isoformat (t : Int) : String := toString t

/-- Digit accumulator for `fromisoformat`. -/
def natOfDigits : List Char → Nat → Option Nat
  | [], acc => some acc
  | c :: cs, acc =>
      if '0' ≤ c ∧ c ≤ '9' then natOfDigits cs (acc * 10 + (c.toNat - '0'.toNat))
      else none

/-- Models `datetime.fromisoformat` on the integer-timestamp rendering used
by `isoformat`: parses an optionally negated decimal numeral; `none` stands
for the `ValueError` the Python call raises on a malformed string. -/
def fromisoformat (s : String) : Option Int :=
  match s.data with
  | [] => none
  | '-' :: cs => if cs.isEmpty then none else (natOfDigits cs 0).map (fun n => -(n : Int))
  | cs => (natOfDigits cs 0).map (fun n => (n : Int))

/-- Models `str(timedelta)` applied to the difference of two timestamps. -/
def str_timedelta (d : Int) : String := toString d

/-- Models Python's `s or d` for strings (`d` when `s` is empty/falsy). -/
def pyOrDefault (s d : String) : String := if s = "" then d else s

theorem pyOrDefault_empty (s : String) : pyOrDefault s "" = s := by
  by_cases h : s = "" <;> simp [pyOrDefault, h]

/-! ### SessionStatusTracker (src/desto/redis/status_tracker.py)

The client's `get_session_key` prepends the session namespace
(client.py, lines 19 and 52-53). -/

def get_session_key (session_name : String) : String :=
  "desto:session:" ++ session_name

/-- `_publish_status_update` (status_tracker.py lines 242-246): merges
`session_name` and `timestamp` with the mutated fields and publishes on the
well-known channel.  The `**data` spread lets `data` override the two fixed
entries, which `fmSetMany` reproduces. -/
def publish_status_update (avail : Bool) (st : RedisState) (session_name : String)
    (data : FieldMap) (now : Int) : Except String RedisState :=
  publishE avail st "desto:session_updates"
    (fmSetMany [("session_name", session_name), ("timestamp", isoformat now)] data)

/-- `mark_session_started` (lines 14-39).  The whole body sits in a
try/except that logs and swallows any Redis error, so the embedding is total:
on failure the state is unchanged.  (With `avail = false` the very first
primitive raises, so nothing was written before the handler runs.) -/
def mark_session_started (avail : Bool) (st : RedisState)
    (session_name command script_path : String) (now : Int) : RedisState :=
  let session_data : FieldMap :=
    [("session_name", session_name),
     ("status", "running"),
     ("command", pyOrDefault command ""),
     ("script_path", pyOrDefault script_path ""),
     ("start_time", isoformat now),
     ("last_heartbeat", isoformat now),
     ("pid", "")]
  runE st (do
    let st1 ← hsetE avail st (get_session_key session_name) session_data
    let st2 ← expireE avail st1 (get_session_key session_name) (7 * 86400)
    publish_status_update avail st2 session_name session_data now)

/-- `_calculate_duration` (lines 104-111).  No try/except: a raising read or a
`ValueError` from `fromisoformat` propagates to the caller. -/
def calculate_duration (avail : Bool) (st : RedisState) (now : Int)
    (session_name : String) : Except String String := do
  let data ← hgetallE avail st (get_session_key session_name)
  match alGet data "start_time" with
  | some s =>
      if s = "" then pure "unknown"
      else
        match fromisoformat s with
        | some start => pure (str_timedelta (now - start))
        | none => .error "ValueError"
  | none => pure "unknown"

/-- `_calculate_elapsed` (lines 113-147).  The body sits in a try/except
returning `"N/A"`, so the embedding is total.  Empty-string fields are falsy
in the Python `if`-guards, hence the explicit `= ""` branches.  (The
bytes-decoding branch is a no-op here: the client is created with
`decode_responses=True`.) -/
def calculate_elapsed (avail : Bool) (st : RedisState) (now : Int)
    (session_name : String) : String :=
  match hgetallE avail st (get_session_key session_name) with
  | .error _ => "N/A"
  | .ok data =>
    if data = [] then "N/A"
    else
      match alGet data "start_time" with
      | none => "N/A"
      | some s =>
        if s = "" then "N/A"
        else
          match fromisoformat s with
          | none => "N/A"
          | some start =>
            match alGet data "job_finished_time" with
            | some j =>
              if j = "" then str_timedelta (now - start)
              else
                match fromisoformat j with
                | none => "N/A"
                | some endT => str_timedelta (endT - start)
            | none => str_timedelta (now - start)

/-- `_calculate_job_elapsed` (lines 176-210): its body is a verbatim copy of
`_calculate_elapsed`, so the embedding delegates. -/
def calculate_job_elapsed (avail : Bool) (st : RedisState) (now : Int)
    (session_name : String) : String :=
  calculate_elapsed avail st now session_name

/-- `mark_session_finished` (lines 41-54).  No try/except: store failures
propagate.  `duration` and `elapsed` are computed (reading the pre-state)
while the dict literal is built, before the `hset`. -/
def mark_session_finished (avail : Bool) (st : RedisState) (session_name : String)
    (exit_code : Int) (now : Int) : Except String RedisState := do
  let dur ← calculate_duration avail st now session_name
  let finish_data : FieldMap :=
    [("status", "finished"),
     ("exit_code", toString exit_code),
     ("end_time", isoformat now),
     ("duration", dur),
     ("elapsed", calculate_elapsed avail st now session_name)]
  let st1 ← hsetE avail st (get_session_key session_name) finish_data
  publish_status_update avail st1 session_name finish_data now

/-- `mark_session_failed` (lines 56-67).  No try/except. -/
def mark_session_failed (avail : Bool) (st : RedisState) (session_name : String)
    (error_message : String) (now : Int) : Except String RedisState := do
  let dur ← calculate_duration avail st now session_name
  let fail_data : FieldMap :=
    [("status", "failed"),
     ("error", error_message),
     ("end_time", isoformat now),
     ("duration", dur)]
  let st1 ← hsetE avail st (get_session_key session_name) fail_data
  publish_status_update avail st1 session_name fail_data now

/-- `update_heartbeat` (lines 69-71): a single-field `hset`, no try/except,
no publish. -/
def update_heartbeat (avail : Bool) (st : RedisState) (session_name : String)
    (now : Int) : Except String RedisState :=
  hsetE avail st (get_session_key session_name) [("last_heartbeat", isoformat now)]

/-- `get_session_status` (lines 73-76): `hgetall`, returning `None` for an
empty result.  No try/except: a raising read propagates. -/
def get_session_status (avail : Bool) (st : RedisState) (session_name : String) :
    Except String (Option FieldMap) := do
  let data ← hgetallE avail st (get_session_key session_name)
  pure (if data = [] then none else some data)

/-- `is_session_finished` (lines 78-81): `status in ["finished", "failed"]`
(an absent field reads as `None`, which is in neither).  No try/except. -/
def is_session_finished (avail : Bool) (st : RedisState) (session_name : String) :
    Except String Bool := do
  let s ← hgetE avail st (get_session_key session_name) "status"
  pure (s == some "finished" || s == some "failed")

/-- `mark_job_finished` (lines 149-161).  No try/except around the `hset` and
publish; `_calculate_job_elapsed` itself is total. -/
def mark_job_finished (avail : Bool) (st : RedisState) (session_name : String)
    (exit_code : Int) (now : Int) : Except String RedisState := do
  let job_finish_data : FieldMap :=
    [("job_status", "finished"),
     ("job_exit_code", toString exit_code),
     ("job_finished_time", isoformat now),
     ("job_elapsed", calculate_job_elapsed avail st now session_name)]
  let st1 ← hsetE avail st (get_session_key session_name) job_finish_data
  publish_status_update avail st1 session_name job_finish_data now

/-- `mark_job_failed` (lines 163-174).  Writes `job_error`, not
`job_exit_code`.  No try/except. -/
def mark_job_failed (avail : Bool) (st : RedisState) (session_name : String)
    (error_message : String) (now : Int) : Except String RedisState := do
  let job_fail_data : FieldMap :=
    [("job_status", "failed"),
     ("job_error", error_message),
     ("job_finished_time", isoformat now),
     ("job_elapsed", calculate_job_elapsed avail st now session_name)]
  let st1 ← hsetE avail st (get_session_key session_name) job_fail_data
  publish_status_update avail st1 session_name job_fail_data now

/-- `get_job_status` (lines 212-240): total — the try/except returns
`"unknown"` on any error, an empty record also reads `"unknown"`, and an
absent `job_status` field defaults to `"running"`. -/
def get_job_status (avail : Bool) (st : RedisState) (session_name : String) : String :=
  match hgetallE avail st (get_session_key session_name) with
  | .error _ => "unknown"
  | .ok data =>
    if data = [] then "unknown"
    else (alGet data "job_status").getD "running"

/-! ### scripts/mark_job_finished.py -/

/-- The main body of scripts/mark_job_finished.py (lines 26-34): when the
client is connected, exit code 0 goes to `mark_job_finished` and any nonzero
exit code goes to `mark_job_failed` with the message
`Job exited with code N`; when not connected, tracking is skipped.
A connected client means the store is reachable (`avail = true`), under which
neither tracker call raises. -/
def mark_job_finished_script (connected : Bool) (st : RedisState)
    (session_name : String) (exit_code : Int) (now : Int) : RedisState :=
  if connected then
    if exit_code = 0 then
      runE st (mark_job_finished true st session_name exit_code now)
    else
      runE st (mark_job_failed true st session_name
        ("Job exited with code " ++ toString exit_code) now)
  else st

/-! ### TmuxManager (src/desto/app/sessions.py) -/

/-- Modelled from the spec: `DestoManager.get_job_status` (the module
desto/redis/desto_manager.py is not among the sources) proxies to the Store's
`get_job_status`. -/
def desto_get_job_status (avail : Bool) (st : RedisState) (session_name : String) :
    String :=
  get_job_status avail st session_name

/-- The UI status resolution in `add_sessions_table` (sessions.py lines
376-382): `"Finished"` iff the job status is `finished` or `failed`, else
`"Running"`. -/
def display_status (job_status : String) : String :=
  if job_status = "finished" ∨ job_status = "failed" then "Finished" else "Running"

/-- The status shown for a session row when Redis tracking is enabled
(sessions.py lines 377-382). -/
def session_display_status (avail : Bool) (st : RedisState) (session_name : String) :
    String :=
  display_status (desto_get_job_status avail st session_name)

/-- Modelled from the spec: `DestoManager.finish_session`
(desto/redis/desto_manager.py is not among the sources).  Per the spec's
Reconciler design, finishing on process disappearance looks up the current
job status and, if it is not already `finished`/`failed`, marks the session
finished with the given exit code via the Store; store failures are absorbed. -/
def finish_session (st : RedisState) (session_name : String) (exit_code : Int)
    (now : Int) : RedisState :=
  let js := get_job_status true st session_name
  if js = "finished" ∨ js = "failed" then st
  else runE st (mark_session_finished true st session_name exit_code now)

/-- The observable calls a monitoring loop makes for its session. -/
inductive MonitorEvent where
  | heartbeat
  | finish_called (exit_code : Int)
  deriving Repr, DecidableEq

/-- The monitoring loop of `_start_redis_monitoring` (sessions.py lines
76-95), driven by a finite trace of polls; each poll is the list of live tmux
session names returned by `check_sessions`.  If the name is absent the loop
calls `finish_session(name, exit_code=0)` and breaks; otherwise it refreshes
the heartbeat and continues.  An exhausted trace models a still-running loop
prefix. -/
def monitor_run (session_name : String) (polls : List (List String))
    (st : RedisState) (now : Int) : RedisState × List MonitorEvent :=
  match polls with
  | [] => (st, [])
  | live :: rest =>
    if session_name ∈ live then
      let st' := runE st (update_heartbeat true st session_name now)
      let res := monitor_run session_name rest st' now
      (res.1, .heartbeat :: res.2)
    else
      (finish_session st session_name 0 now, [.finish_called 0])

/-! Command wrapping in `start_tmux_session` (sessions.py lines 206-239).
`quoted_log_file` stands for `shlex.quote(str(log_file))` and `append_mode`
for `log_file.exists()`; both depend only on the filesystem. -/

/-- The timestamped separator line (sessions.py line 217). -/
def session_separator (quoted_log_file : String) : String :=
  "printf '\\n---- NEW SESSION (%s) -----\\n' \"$(date '+%Y-%m-%d %H:%M:%S')\" >> "
    ++ quoted_log_file

/-- The SCRIPT STARTING marker in append mode (line 220). -/
def script_starting_append (quoted_log_file : String) : String :=
  "printf \"\\n=== SCRIPT STARTING at %s ===\\n\" \"$(date)\" >> " ++ quoted_log_file

/-- The SCRIPT STARTING marker creating a fresh log file (line 224). -/
def script_starting_new (quoted_log_file : String) : String :=
  "printf \"\\n=== SCRIPT STARTING at %s ===\\n\" \"$(date)\" > " ++ quoted_log_file

/-- `pre_script_commands` (lines 213-228): the `cmd_parts` joined with
`\" && \"`. -/
def pre_script_commands (quoted_log_file : String) (append_mode : Bool) : String :=
  if append_mode then
    session_separator quoted_log_file ++ " && " ++ script_starting_append quoted_log_file
  else script_starting_new quoted_log_file

/-- The SCRIPT FINISHED marker line (line 234). -/
def script_finished_line (quoted_log_file : String) : String :=
  "printf \"\\n=== SCRIPT FINISHED at %s (exit code: $SCRIPT_EXIT_CODE) ===\\n\" \"$(date)\" >> "
    ++ quoted_log_file

/-- The keep-alive blocking tail (line 236). -/
def keep_alive_line (quoted_log_file : String) : String :=
  "tail -f /dev/null >> " ++ quoted_log_file ++ " 2>&1"

/-- `get_job_completion_command` (sessions.py lines 683-721).  `python_cmd`
and `script_path` stand for the environment-dependent interpreter and
resolved path of scripts/mark_job_finished.py; `log_dir` for `self.LOG_DIR`. -/
def get_job_completion_command (use_redis : Bool) (log_dir session_name : String)
    (use_variable : Bool) (python_cmd script_path : String) : String :=
  let exit_code_ref := if use_variable then "$SCRIPT_EXIT_CODE" else "$?"
  if use_redis = false then
    "touch '" ++ log_dir ++ "/" ++ session_name ++ ".finished'"
  else
    python_cmd ++ " '" ++ script_path ++ "' '" ++ session_name ++ "' " ++ exit_code_ref

/-- The generated `bash_script` (lines 230-237) as its list of shell lines
(the f-string joins them with newlines; `.strip()` drops the empty final line
when `keep_alive` is false). -/
def bash_script_lines (command quoted_log_file completion_command : String)
    (append_mode keep_alive : Bool) : List String :=
  [pre_script_commands quoted_log_file append_mode,
   "(" ++ command ++ ") >> " ++ quoted_log_file ++ " 2>&1",
   "SCRIPT_EXIT_CODE=$?",
   script_finished_line quoted_log_file,
   completion_command]
  ++ (if keep_alive then [keep_alive_line quoted_log_file] else [])

/-- The wrapped command handed to `tmux new-session` in `start_tmux_session`,
with the completion command built by
`get_job_completion_command(session_name, use_variable=True)` (line 235). -/
def build_bash_script (use_redis : Bool) (log_dir python_cmd script_path : String)
    (session_name command quoted_log_file : String) (append_mode keep_alive : Bool) :
    List String :=
  bash_script_lines command quoted_log_file
    (get_job_completion_command use_redis log_dir session_name true python_cmd script_path)
    append_mode keep_alive

/-- The duplicate-name guard of `start_tmux_session` (sessions.py lines
188-194): if the name is among the live tmux sessions, nothing is started
(`none`); otherwise the wrapped script is produced and launched. -/
def start_tmux_session (live : List String) (use_redis : Bool)
    (log_dir python_cmd script_path : String)
    (session_name command quoted_log_file : String) (append_mode keep_alive : Bool) :
    Option (List String) :=
  if session_name ∈ live then none
  else some (build_bash_script use_redis log_dir python_cmd script_path
    session_name command quoted_log_file append_mode keep_alive)

/-! ### CLISessionManager.start_session (src/desto/cli/session_manager.py) -/

/-- A registry session record: the part of the Session entity the duplicate
check depends on. -/
structure SessionRec where
  status : String
  start_time : Option Int
  deriving Repr, DecidableEq

/-- The Registry: one record per session name. -/
abbrev Registry := List (String × SessionRec)

/-- Modelled from the spec: `SessionManager.get_session_by_name`
(desto/redis/session_manager.py is not among the sources) — lookup by
session name. -/
def get_session_by_name (reg : Registry) (session_name : String) : Option SessionRec :=
  alGet reg session_name

/-- Modelled from the spec: `SessionManager.create_session` — creates a
scheduled-or-equivalent record for the name. -/
def create_session (reg : Registry) (session_name : String) : Registry :=
  alSet reg session_name ⟨"scheduled", none⟩

/-- Modelled from the spec: `SessionManager.start_session` — transitions the
record to running and sets its start_time. -/
def registry_start_session (reg : Registry) (session_name : String) (now : Int) :
    Registry :=
  alSet reg session_name ⟨"running", some now⟩

/-- `CLISessionManager.start_session` (session_manager.py lines 46-118),
restricted to its decision logic and registry effect: the in-memory duplicate
check (line 53), the Redis duplicate check (lines 58-71, rejecting whenever a
record for the name exists, before any mutation), then creation and start in
the registry and the tmux launch whose failure yields `False`.  Log-file I/O
is filesystem-only and not modelled. -/
def cli_start_session (mem : List String) (reg : Registry) (session_name : String)
    (now : Int) (tmux_ok : Bool) : Bool × Registry :=
  if session_name ∈ mem then (false, reg)
  else
    match get_session_by_name reg session_name with
    | some _ => (false, reg)
    | none =>
      let reg1 := registry_start_session (create_session reg session_name) session_name now
      if tmux_ok then (true, reg1) else (false, reg1)

/-! ### Helper lemmas -/

@[simp] theorem hgetall_publishMsg (st : RedisState) (c : String) (m : FieldMap)
    (k : String) : hgetall (publishMsg st c m) k = hgetall st k := rfl

@[simp] theorem hgetall_expireKey (st : RedisState) (k : String) (s : Nat)
    (k' : String) : hgetall (expireKey st k s) k' = hgetall st k' := rfl

@[simp] theorem expires_publishMsg (st : RedisState) (c : String) (m : FieldMap) :
    (publishMsg st c m).expires = st.expires := rfl

@[simp] theorem expires_hsetMapping (st : RedisState) (k : String) (m : FieldMap) :
    (hsetMapping st k m).expires = st.expires := rfl

@[simp] theorem expires_expireKey (st : RedisState) (k : String) (s : Nat) :
    (expireKey st k s).expires = alSet st.expires k s := rfl

@[simp] theorem alSet_eq_nil_iff {α : Type} (l : List (String × α)) (k : String)
    (v : α) : (alSet l k v = []) ↔ False := by
  simp [alSet_ne_nil]

theorem hgetall_hsetMapping_self (st : RedisState) (key : String) (mapping : FieldMap) :
    hgetall (hsetMapping st key mapping) key = fmSetMany (hgetall st key) mapping := by
  simp [hgetall_hsetMapping]

@[simp] theorem toString_int_zero : toString (0 : Int) = "0" := rfl

/-! ### Claims -/

/-- C1.  After `mark_job_finished(name, exit_code)` succeeds against a
reachable store, `get_job_status(name)` returns `"finished"` and the stored
`job_exit_code` equals `str(exit_code)`; a second call with a different exit
code also succeeds (returns `.ok`, no exception), and the second call's
values win. -/
theorem mark_job_finished_roundtrip_and_last_write_wins
    (st : RedisState) (name : String) (c1 c2 now1 now2 : Int) :
    ∃ st1 st2,
      mark_job_finished true st name c1 now1 = .ok st1
      ∧ mark_job_finished true st1 name c2 now2 = .ok st2
      ∧ get_job_status true st1 name = "finished"
      ∧ hget st1 (get_session_key name) "job_exit_code" = some (toString c1)
      ∧ get_job_status true st2 name = "finished"
      ∧ hget st2 (get_session_key name) "job_exit_code" = some (toString c2) := by
  refine ⟨_, _, rfl, rfl, ?_, ?_, ?_, ?_⟩ <;>
    simp [mark_job_finished, hsetE, publish_status_update, publishE, runE,
      Bind.bind, Except.bind, get_job_status, hgetallE, hget,
      hgetall_hsetMapping_self, fmSetMany, alGet_alSet]

/-- C2.  `get_job_status` never raises: for a record that exists but has no
`job_status` field it returns `"running"`, in particular immediately after
`mark_session_started` (whose initial record carries no `job_status`); and
when the underlying store read raises, it returns `"unknown"` rather than
propagating. -/
theorem get_job_status_default_running_and_unknown_on_error
    (st : RedisState) (name command path : String) (now : Int) :
    (alGet (hgetall st (get_session_key name)) "job_status" = none →
        (hgetall st (get_session_key name) ≠ [] → get_job_status true st name = "running")
      ∧ get_job_status true (mark_session_started true st name command path now) name
          = "running")
    ∧ get_job_status false st name = "unknown" := by
  constructor
  · intro hjs
    constructor
    · intro hne
      simp [get_job_status, hgetallE, hne, hjs]
    · simp [mark_session_started, runE, hsetE, expireE, publish_status_update,
        publishE, Bind.bind, Except.bind, get_job_status, hgetallE,
        hgetall_hsetMapping_self, fmSetMany, alGet_alSet, hjs]
  · simp [get_job_status, hgetallE]

/-- C2 witness: a fresh record written by `mark_session_started` has no
`job_status` field, and the theorem instantiates to `"running"` there and to
`"unknown"` on a raising read. -/
theorem get_job_status_default_running_witness :
    get_job_status true
        (mark_session_started true RedisState.empty "s" "cmd" "p" 0) "s" = "running"
    ∧ get_job_status false RedisState.empty "s" = "unknown" := by
  have h := get_job_status_default_running_and_unknown_on_error
    RedisState.empty "s" "cmd" "p" 0
  exact ⟨(h.1 (by decide)).2, h.2⟩

/-- C6.  Round-trip: after `mark_session_started(name, command, script_path)`
against a reachable store, `get_session_status(name)` returns the field map
(not `None`) with `status = "running"`, `command` the given command, and
`start_time`/`last_heartbeat` set; and a 7-day expiry is set on the record's
key. -/
theorem mark_session_started_roundtrip
    (st : RedisState) (name command path : String) (now : Int) :
    get_session_status true (mark_session_started true st name command path now) name
      = .ok (some (hgetall (mark_session_started true st name command path now)
          (get_session_key name)))
    ∧ alGet (hgetall (mark_session_started true st name command path now)
        (get_session_key name)) "status" = some "running"
    ∧ alGet (hgetall (mark_session_started true st name command path now)
        (get_session_key name)) "command" = some command
    ∧ alGet (hgetall (mark_session_started true st name command path now)
        (get_session_key name)) "start_time" = some (isoformat now)
    ∧ alGet (hgetall (mark_session_started true st name command path now)
        (get_session_key name)) "last_heartbeat" = some (isoformat now)
    ∧ alGet (mark_session_started true st name command path now).expires
        (get_session_key name) = some (7 * 86400) := by
  refine ⟨?_, ?_, ?_, ?_, ?_, ?_⟩ <;>
    simp [mark_session_started, runE, hsetE, expireE, publish_status_update,
      publishE, Bind.bind, Except.bind, Pure.pure, Except.pure, get_session_status,
      hgetallE, hgetall_hsetMapping_self, fmSetMany, alGet_alSet, pyOrDefault_empty]

/-- C5 counterexample: the claim says no store operation ever propagates a
store exception, but with the store unreachable `get_session_status` (which
has no try/except) propagates the connection error instead of returning the
`None` sentinel, and so does the write `mark_session_finished`. -/
theorem store_errors_do_propagate_counterexample :
    get_session_status false RedisState.empty "x" = .error "ConnectionError"
    ∧ mark_session_finished false RedisState.empty "x" 0 0 = .error "ConnectionError" :=
  ⟨rfl, rfl⟩

/-- C5 amended.  Against an unreachable store: `get_job_status` returns
`"unknown"` and the elapsed computations return `"N/A"`, and among the writes
only `mark_session_started` logs and swallows the failure (state unchanged);
the remaining reads (`get_session_status`, `is_session_finished`) and writes
(`mark_session_finished`, `mark_session_failed`, `mark_job_finished`,
`mark_job_failed`, `update_heartbeat`) propagate the store exception. -/
theorem store_error_policy
    (st : RedisState) (name cmd path err : String) (ec now : Int) :
    get_job_status false st name = "unknown"
    ∧ calculate_elapsed false st now name = "N/A"
    ∧ calculate_job_elapsed false st now name = "N/A"
    ∧ mark_session_started false st name cmd path now = st
    ∧ get_session_status false st name = .error "ConnectionError"
    ∧ is_session_finished false st name = .error "ConnectionError"
    ∧ mark_session_finished false st name ec now = .error "ConnectionError"
    ∧ mark_session_failed false st name err now = .error "ConnectionError"
    ∧ mark_job_finished false st name ec now = .error "ConnectionError"
    ∧ mark_job_failed false st name err now = .error "ConnectionError"
    ∧ update_heartbeat false st name now = .error "ConnectionError" :=
  ⟨rfl, rfl, rfl, rfl, rfl, rfl, rfl, rfl, rfl, rfl, rfl⟩

/-- C9.  The elapsed computation subtracts `start_time` from
`job_finished_time` when that field is present (and parseable), else from the
current time; a record whose `start_time` is missing yields the `"N/A"`
sentinel (the function is total, so nothing is raised). -/
theorem calculate_elapsed_spec (st : RedisState) (name : String) (now : Int) :
    (alGet (hgetall st (get_session_key name)) "start_time" = none →
       calculate_elapsed true st now name = "N/A")
    ∧ ∀ s t, alGet (hgetall st (get_session_key name)) "start_time" = some s →
        fromisoformat s = some t →
        (alGet (hgetall st (get_session_key name)) "job_finished_time" = none →
           calculate_elapsed true st now name = str_timedelta (now - t))
        ∧ ∀ j u, alGet (hgetall st (get_session_key name)) "job_finished_time" = some j →
            fromisoformat j = some u →
            calculate_elapsed true st now name = str_timedelta (u - t) := by
  constructor
  · intro hst
    by_cases hd : hgetall st (get_session_key name) = [] <;>
      simp [calculate_elapsed, hgetallE, hd, hst]
  · intro s t hs ht
    have hd := alGet_some_ne_nil hs
    have hse : s ≠ "" := by
      intro h
      rw [h] at ht
      simp [fromisoformat] at ht
    constructor
    · intro hj
      simp [calculate_elapsed, hgetallE, hd, hs, hse, ht, hj]
    · intro j u hjf hu
      have hje : j ≠ "" := by
        intro h
        rw [h] at hu
        simp [fromisoformat] at hu
      simp [calculate_elapsed, hgetallE, hd, hs, hse, ht, hjf, hje, hu]

/-- C9 witness: with `start_time = 10` and `job_finished_time = 15`, elapsed
is their difference regardless of the current time; with no record at all
(so no `start_time`), the sentinel comes back. -/
theorem calculate_elapsed_spec_witness :
    calculate_elapsed true
        ⟨[("desto:session:s", [("start_time", "10"), ("job_finished_time", "15")])], [], []⟩
        100 "s" = str_timedelta (15 - 10)
    ∧ calculate_elapsed true RedisState.empty 100 "s" = "N/A" := by
  constructor
  · exact ((calculate_elapsed_spec
      ⟨[("desto:session:s", [("start_time", "10"), ("job_finished_time", "15")])], [], []⟩
      "s" 100).2 "10" 10 (by decide) (by decide)).2 "15" 15 (by decide) (by decide)
  · exact (calculate_elapsed_spec RedisState.empty "s" 100).1 (by decide)

/-- C10.  The job-completion helper script routes exit code 0 to
`mark_job_finished` (the record gains `job_status = "finished"` and
`job_exit_code = "0"`) and any nonzero exit code to `mark_job_failed` (the
record gains `job_status = "failed"` and a `job_error` message, while the
`job_exit_code` field is left exactly as it was — this path never writes it). -/
theorem completion_script_routes_by_exit_code
    (st : RedisState) (name : String) (code now : Int) :
    (code = 0 →
       hget (mark_job_finished_script true st name code now)
           (get_session_key name) "job_status" = some "finished"
       ∧ hget (mark_job_finished_script true st name code now)
           (get_session_key name) "job_exit_code" = some "0")
    ∧ (code ≠ 0 →
       hget (mark_job_finished_script true st name code now)
           (get_session_key name) "job_status" = some "failed"
       ∧ hget (mark_job_finished_script true st name code now)
           (get_session_key name) "job_error"
           = some ("Job exited with code " ++ toString code)
       ∧ hget (mark_job_finished_script true st name code now)
           (get_session_key name) "job_exit_code"
           = hget st (get_session_key name) "job_exit_code") := by
  constructor
  · intro h0
    subst h0
    constructor <;>
      simp [mark_job_finished_script, mark_job_finished, hsetE,
        publish_status_update, publishE, Bind.bind, Except.bind, runE, hget,
        hgetall_hsetMapping_self, fmSetMany, alGet_alSet]
  · intro hnz
    refine ⟨?_, ?_, ?_⟩ <;>
      simp [mark_job_finished_script, hnz, mark_job_failed, hsetE,
        publish_status_update, publishE, Bind.bind, Except.bind, runE, hget,
        hgetall_hsetMapping_self, fmSetMany, alGet_alSet]

/-- C10 witness: a run with exit code 0 marks the job finished with
`job_exit_code = "0"`; a run with exit code 2 marks it failed with the error
message, leaving `job_exit_code` absent (as it was in the empty store). -/
theorem completion_script_routes_witness :
    (hget (mark_job_finished_script true RedisState.empty "s" 0 5)
        (get_session_key "s") "job_status" = some "finished"
      ∧ hget (mark_job_finished_script true RedisState.empty "s" 0 5)
        (get_session_key "s") "job_exit_code" = some "0")
    ∧ (hget (mark_job_finished_script true RedisState.empty "s" 2 5)
        (get_session_key "s") "job_status" = some "failed"
      ∧ hget (mark_job_finished_script true RedisState.empty "s" 2 5)
        (get_session_key "s") "job_error" = some ("Job exited with code " ++ toString (2 : Int))
      ∧ hget (mark_job_finished_script true RedisState.empty "s" 2 5)
        (get_session_key "s") "job_exit_code"
        = hget RedisState.empty (get_session_key "s") "job_exit_code") := by
  constructor
  · exact (completion_script_routes_by_exit_code RedisState.empty "s" 0 5).1 rfl
  · exact (completion_script_routes_by_exit_code RedisState.empty "s" 2 5).2 (by decide)

/-- C3.  When the stored record has `status = "running"` and a `job_status`
in {finished, failed}, the UI display status resolves to `"Finished"`; for
any other stored `job_status` value it resolves to `"Running"`. -/
theorem display_status_resolution (st : RedisState) (name js : String)
    (hstatus : hget st (get_session_key name) "status" = some "running")
    (hjs : alGet (hgetall st (get_session_key name)) "job_status" = some js) :
    ((js = "finished" ∨ js = "failed") → session_display_status true st name = "Finished")
    ∧ (js ≠ "finished" → js ≠ "failed" → session_display_status true st name = "Running") := by
  have hd := alGet_some_ne_nil hjs
  have hgjs : get_job_status true st name = js := by
    simp [get_job_status, hgetallE, hd, hjs]
  constructor
  · intro h
    simp [session_display_status, desto_get_job_status, display_status, hgjs, h]
  · intro h1 h2
    simp [session_display_status, desto_get_job_status, display_status, hgjs, h1, h2]

/-- C3 witness: a keep-alive session whose record still says
`status = "running"` but whose job finished displays as `"Finished"`, and one
whose `job_status` is `"running"` displays as `"Running"`. -/
theorem display_status_resolution_witness :
    session_display_status true
        ⟨[("desto:session:b", [("status", "running"), ("job_status", "finished")])], [], []⟩
        "b" = "Finished"
    ∧ session_display_status true
        ⟨[("desto:session:b", [("status", "running"), ("job_status", "running")])], [], []⟩
        "b" = "Running" := by
  constructor
  · exact (display_status_resolution
      ⟨[("desto:session:b", [("status", "running"), ("job_status", "finished")])], [], []⟩
      "b" "finished" (by decide) (by decide)).1 (Or.inl rfl)
  · exact (display_status_resolution
      ⟨[("desto:session:b", [("status", "running"), ("job_status", "running")])], [], []⟩
      "b" "running" (by decide) (by decide)).2 (by decide) (by decide)

/-! Helper lemmas for the monitoring-loop claim. -/

theorem update_heartbeat_run (st : RedisState) (name : String) (now : Int) :
    runE st (update_heartbeat true st name now)
      = hsetMapping st (get_session_key name) [("last_heartbeat", isoformat now)] := rfl

theorem job_status_field_of_not_terminal (st : RedisState) (name : String)
    (h1 : get_job_status true st name ≠ "finished")
    (h2 : get_job_status true st name ≠ "failed") :
    alGet (hgetall st (get_session_key name)) "job_status" ≠ some "finished"
    ∧ alGet (hgetall st (get_session_key name)) "job_status" ≠ some "failed" := by
  by_cases hd : hgetall st (get_session_key name) = []
  · rw [hd]
    simp [alGet]
  · cases halg : alGet (hgetall st (get_session_key name)) "job_status" with
    | none => simp
    | some v =>
        have hv : get_job_status true st name = v := by
          simp [get_job_status, hgetallE, hd, halg]
        rw [hv] at h1 h2
        constructor <;> simp [h1, h2]

theorem get_job_status_after_heartbeat (st : RedisState) (name : String) (now : Int)
    (h1 : get_job_status true st name ≠ "finished")
    (h2 : get_job_status true st name ≠ "failed") :
    get_job_status true (runE st (update_heartbeat true st name now)) name ≠ "finished"
    ∧ get_job_status true (runE st (update_heartbeat true st name now)) name ≠ "failed" := by
  obtain ⟨hf, hl⟩ := job_status_field_of_not_terminal st name h1 h2
  have hrec : hgetall (runE st (update_heartbeat true st name now)) (get_session_key name)
      = alSet (hgetall st (get_session_key name)) "last_heartbeat" (isoformat now) := by
    rw [update_heartbeat_run, hgetall_hsetMapping_self]
    rfl
  have hne : hgetall (runE st (update_heartbeat true st name now)) (get_session_key name) ≠ [] := by
    rw [hrec]
    exact alSet_ne_nil _ _ _
  have hjs : alGet (hgetall (runE st (update_heartbeat true st name now)) (get_session_key name))
      "job_status" = alGet (hgetall st (get_session_key name)) "job_status" := by
    rw [hrec, alGet_alSet]
    simp
  have hval : get_job_status true (runE st (update_heartbeat true st name now)) name
      = (alGet (hgetall st (get_session_key name)) "job_status").getD "running" := by
    simp [get_job_status, hgetallE, hne, hjs]
  rw [hval]
  cases halg : alGet (hgetall st (get_session_key name)) "job_status" with
  | none => simp
  | some v =>
      rw [halg] at hf hl
      constructor <;> intro hc <;> simp at hc
      · exact hf (by rw [hc])
      · exact hl (by rw [hc])

theorem start_time_after_heartbeat (st : RedisState) (name : String) (now : Int) :
    alGet (hgetall (runE st (update_heartbeat true st name now)) (get_session_key name))
        "start_time"
      = alGet (hgetall st (get_session_key name)) "start_time" := by
  rw [update_heartbeat_run, hgetall_hsetMapping_self]
  show alGet (alSet _ "last_heartbeat" _) "start_time" = _
  rw [alGet_alSet]
  simp

theorem calculate_duration_ok (st : RedisState) (name : String) (now : Int)
    (hstart : alGet (hgetall st (get_session_key name)) "start_time" = none ∨
      ∃ s t, alGet (hgetall st (get_session_key name)) "start_time" = some s
        ∧ fromisoformat s = some t) :
    ∃ d, calculate_duration true st now name = .ok d := by
  rcases hstart with h | ⟨s, t, hs, ht⟩
  · exact ⟨"unknown", by simp [calculate_duration, hgetallE, Bind.bind, Except.bind,
      Pure.pure, Except.pure, h]⟩
  · have hse : s ≠ "" := by
      intro hh
      rw [hh] at ht
      simp [fromisoformat] at ht
    exact ⟨str_timedelta (now - t), by simp [calculate_duration, hgetallE, Bind.bind,
      Except.bind, Pure.pure, Except.pure, hs, hse, ht]⟩

theorem finish_session_marks_finished (st : RedisState) (name : String) (now : Int)
    (h1 : get_job_status true st name ≠ "finished")
    (h2 : get_job_status true st name ≠ "failed")
    (hstart : alGet (hgetall st (get_session_key name)) "start_time" = none ∨
      ∃ s t, alGet (hgetall st (get_session_key name)) "start_time" = some s
        ∧ fromisoformat s = some t) :
    hget (finish_session st name 0 now) (get_session_key name) "status" = some "finished"
    ∧ hget (finish_session st name 0 now) (get_session_key name) "exit_code" = some "0" := by
  obtain ⟨d, hd⟩ := calculate_duration_ok st name now hstart
  have hcond : ¬ (get_job_status true st name = "finished"
      ∨ get_job_status true st name = "failed") := by
    intro h
    cases h with
    | inl h => exact h1 h
    | inr h => exact h2 h
  constructor <;>
    simp [finish_session, hcond, mark_session_finished, hd, hsetE,
      publish_status_update, publishE, Bind.bind, Except.bind, runE, hget,
      hgetall_hsetMapping_self, fmSetMany, alGet_alSet]

/-- C4.  For a tracked session, the monitoring loop refreshes the heartbeat
on every poll in which the name is still among the live tmux sessions; on
the first poll in which it is absent it calls `finish_session(name, 0)` and
terminates — the event trace is exactly one heartbeat per preceding poll
followed by one finish call, whatever polls would have come later; and when
the job was not already finished/failed (and the stored `start_time` is
absent or well-formed, as every record this system writes has), the final
record carries `status = "finished"` and `exit_code = "0"`. -/
theorem monitor_finishes_on_disappearance
    (pre : List (List String)) (live : List String) (rest : List (List String))
    (st : RedisState) (name : String) (now : Int)
    (hpre : ∀ p ∈ pre, name ∈ p) (habs : name ∉ live)
    (h1 : get_job_status true st name ≠ "finished")
    (h2 : get_job_status true st name ≠ "failed")
    (hstart : alGet (hgetall st (get_session_key name)) "start_time" = none ∨
      ∃ s t, alGet (hgetall st (get_session_key name)) "start_time" = some s
        ∧ fromisoformat s = some t) :
    (monitor_run name (pre ++ live :: rest) st now).2
        = List.replicate pre.length MonitorEvent.heartbeat ++ [MonitorEvent.finish_called 0]
    ∧ hget (monitor_run name (pre ++ live :: rest) st now).1
        (get_session_key name) "status" = some "finished"
    ∧ hget (monitor_run name (pre ++ live :: rest) st now).1
        (get_session_key name) "exit_code" = some "0" := by
  induction pre generalizing st with
  | nil =>
      obtain ⟨hs, he⟩ := finish_session_marks_finished st name now h1 h2 hstart
      refine ⟨?_, ?_, ?_⟩ <;> simp [monitor_run, habs, hs, he]
  | cons p pre ih =>
      have hp : name ∈ p := hpre p (by simp)
      have hpre' : ∀ q ∈ pre, name ∈ q := fun q hq => hpre q (by simp [hq])
      obtain ⟨h1', h2'⟩ := get_job_status_after_heartbeat st name now h1 h2
      have hstart' : alGet (hgetall (runE st (update_heartbeat true st name now))
          (get_session_key name)) "start_time" = none ∨
          ∃ s t, alGet (hgetall (runE st (update_heartbeat true st name now))
            (get_session_key name)) "start_time" = some s ∧ fromisoformat s = some t := by
        rw [start_time_after_heartbeat]
        exact hstart
      obtain ⟨htr, hstat, hexit⟩ :=
        ih (runE st (update_heartbeat true st name now)) hpre' h1' h2' hstart'
      refine ⟨?_, ?_, ?_⟩ <;>
        simp [monitor_run, hp, htr, hstat, hexit, List.replicate_succ]

/-- C4 witness: a session written by `mark_session_started`, present on the
first poll and gone on the second: one heartbeat, one finish call, final
record `status = "finished"`, `exit_code = "0"`. -/
theorem monitor_finishes_witness :
    (monitor_run "batch-2" [["batch-2"], []]
        (mark_session_started true RedisState.empty "batch-2" "cmd" "p" 10) 20).2
        = List.replicate 1 MonitorEvent.heartbeat ++ [MonitorEvent.finish_called 0]
    ∧ hget (monitor_run "batch-2" [["batch-2"], []]
        (mark_session_started true RedisState.empty "batch-2" "cmd" "p" 10) 20).1
        (get_session_key "batch-2") "status" = some "finished"
    ∧ hget (monitor_run "batch-2" [["batch-2"], []]
        (mark_session_started true RedisState.empty "batch-2" "cmd" "p" 10) 20).1
        (get_session_key "batch-2") "exit_code" = some "0" :=
  monitor_finishes_on_disappearance [["batch-2"]] [] []
    (mark_session_started true RedisState.empty "batch-2" "cmd" "p" 10) "batch-2" 20
    (by decide) (by decide) (by decide) (by decide)
    (Or.inr ⟨"10", 10, by decide, by decide⟩)

/-- C7.  While a session of the given name exists in the registry and is not
terminal, a second creation attempt through the CLI manager is rejected
(returns `false`), leaves the registry — hence the existing record and its
`start_time` — unchanged, and creates no partial state; likewise, the
dashboard launcher starts nothing when the name is among the live tmux
sessions. -/
theorem duplicate_session_rejected
    (mem : List String) (reg : Registry) (name : String) (r : SessionRec)
    (now : Int) (tmux_ok : Bool) (live : List String)
    (hr : get_session_by_name reg name = some r)
    (hnt1 : r.status ≠ "finished") (hnt2 : r.status ≠ "failed")
    (hlive : name ∈ live)
    (use_redis : Bool) (log_dir python_cmd script_path command q : String)
    (am ka : Bool) :
    cli_start_session mem reg name now tmux_ok = (false, reg)
    ∧ get_session_by_name (cli_start_session mem reg name now tmux_ok).2 name = some r
    ∧ start_tmux_session live use_redis log_dir python_cmd script_path
        name command q am ka = none := by
  have hc : cli_start_session mem reg name now tmux_ok = (false, reg) := by
    by_cases hm : name ∈ mem <;> simp [cli_start_session, hm, hr]
  refine ⟨hc, ?_, ?_⟩
  · rw [hc]
    exact hr
  · simp [start_tmux_session, hlive]

/-- C7 witness: with `"x"` registered and running, a second start attempt
returns failure with the registry (and its `start_time`) intact, and the
dashboard path starts nothing while tmux still lists `"x"`. -/
theorem duplicate_session_rejected_witness :
    cli_start_session [] [("x", ⟨"running", some 5⟩)] "x" 9 true
        = (false, [("x", ⟨"running", some 5⟩)])
    ∧ get_session_by_name (cli_start_session [] [("x", ⟨"running", some 5⟩)] "x" 9 true).2 "x"
        = some ⟨"running", some 5⟩
    ∧ start_tmux_session ["x"] true "/logs" "python3" "/app/s.py" "x" "echo hi"
        "/logs/x.log" true false = none :=
  duplicate_session_rejected [] [("x", ⟨"running", some 5⟩)] "x" ⟨"running", some 5⟩
    9 true ["x"] (by decide) (by decide) (by decide) (by decide)
    true "/logs" "python3" "/app/s.py" "echo hi" "/logs/x.log" true false

/-- C8.  The wrapped shell sequence: line 0 prepends the timestamped
separator exactly when the log file already exists and writes the SCRIPT
STARTING marker; line 1 runs the original command with stdout/stderr
redirected to the log; line 2 — the immediately following command — captures
`$?` into `SCRIPT_EXIT_CODE`; line 3 writes the SCRIPT FINISHED marker
containing that exit code; line 4 invokes the job-completion call with the
captured `$SCRIPT_EXIT_CODE`; and a blocking `tail -f /dev/null` is appended
as line 5 if and only if `keep_alive` is set (with the list length showing
nothing else follows). -/
theorem wrapped_command_structure
    (command q log_dir name python_cmd script_path : String) (append keep : Bool) :
    (build_bash_script true log_dir python_cmd script_path name command q append keep)[0]?
        = some (cond append
            (session_separator q ++ " && " ++ script_starting_append q)
            (script_starting_new q))
    ∧ (build_bash_script true log_dir python_cmd script_path name command q append keep)[1]?
        = some ("(" ++ command ++ ") >> " ++ q ++ " 2>&1")
    ∧ (build_bash_script true log_dir python_cmd script_path name command q append keep)[2]?
        = some "SCRIPT_EXIT_CODE=$?"
    ∧ (build_bash_script true log_dir python_cmd script_path name command q append keep)[3]?
        = some (script_finished_line q)
    ∧ (build_bash_script true log_dir python_cmd script_path name command q append keep)[4]?
        = some (get_job_completion_command true log_dir name true python_cmd script_path)
    ∧ get_job_completion_command true log_dir name true python_cmd script_path
        = python_cmd ++ " '" ++ script_path ++ "' '" ++ name ++ "' " ++ "$SCRIPT_EXIT_CODE"
    ∧ (build_bash_script true log_dir python_cmd script_path name command q append keep)[5]?
        = cond keep (some (keep_alive_line q)) none
    ∧ (build_bash_script true log_dir python_cmd script_path name command q append keep).length
        = cond keep 6 5 := by
  cases append <;> cases keep <;>
    refine ⟨?_, ?_, ?_, ?_, ?_, ?_, ?_, ?_⟩ <;>
      simp [build_bash_script, bash_script_lines, pre_script_commands,
        get_job_completion_command]

end Desto
